import Mathlib

/-!
Verification development for the `/stream/<file_id>` endpoint of
`src/main.py` (the `stream_file` Quart route, together with its helpers
`get_media_mime_type` and the constant `TELEGRAM_FILE_SIZE_LIMIT`).

Shallow embedding notes.

The route body (src/main.py lines 591-668) is:

    try:
        if app_state['files_collection'] is None: abort(503)
        file_info = files_collection.find_one({'_id': file_id}, ...)
        if not file_info: abort(404)
        filename  = file_info['filename']
        file_size = file_info.get('file_size', 0)
        mime_type = get_media_mime_type(filename)
        telegram_file_url = None
        if file_size <= TELEGRAM_FILE_SIZE_LIMIT:
            try: telegram_file_url = (await bot.get_file(file_id)).file_path
            except Exception: pass   -- (logged; url stays None)
        if not telegram_file_url: abort(404)
        range_header = request.headers.get('Range', '').strip()
        async def stream_content():
            try:
                headers = {'Range': range_header} if range_header else {}
                ... client.stream("GET", telegram_file_url, headers=headers)
                response.raise_for_status()
                async for chunk in response.aiter_bytes(8192): yield chunk
            except Exception: yield b''
        response_headers = {'Content-Type', 'Accept-Ranges', 'Cache-Control',
                            'Access-Control-Allow-Origin', 'Transfer-Encoding'}
        status_code = 206 if range_header else 200
        return Response(stream_content(), status_code, response_headers)
    except Exception as e:
        abort(500)

A central, load-bearing fact of the translation: Quart's `abort(n)` raises a
`werkzeug.exceptions.HTTPException`, which is a subclass of Python's
`Exception`.  The route wraps its whole body in `try: ... except Exception:
abort(500)`, so the `abort(503)` and the two `abort(404)` calls inside the
body are caught by the route's own blanket handler and replaced by
`abort(500)`: the client observes status 500 on every error path of this
route.  We model `abort(n)` as `Except.error n` and the outer handler as
mapping every `Except.error _` to the 500 error response.

Collaborators (MongoDB collection, Telegram `get_file`, the httpx upstream
fetch, and the stdlib `mimetypes.guess_type`) are oracles supplied in an
`Env` record.  The upstream byte stream is an `UpstreamResp`: whether
`raise_for_status` passes (a failed connect is modelled the same way, as no
chunk is yielded then either), the chunks yielded before any mid-stream
error, and whether such a mid-stream error occurs.  Side effects performed
by the handler are recorded in an explicit `Effect` trace; the effect
language also has a `dbWrite` constructor (used elsewhere in the repository
by the upload handlers) so that "the stream route performs no writes" is a
meaningful statement rather than one true by construction.
-/

/-- A byte (`0..255` in the real program; the claims never depend on the
bound, so we use `Nat`). -/
abbrev Byte := Nat

/-- One chunk yielded by `response.aiter_bytes(8192)` (or the final `b''`). -/
abbrev Chunk := List Byte

/-- Result of `find_one({'_id': file_id}, {'filename': 1, 'file_size': 1})`:
the projected document.  `filename` is accessed with `file_info['filename']`
(assumed present), `file_size` with `.get('file_size', 0)`, hence optional. -/
structure FileInfo where
  filename : String
  file_size : Option Nat
deriving DecidableEq, Repr

/-- The `files_collection` lookup by `_id`. -/
abbrev FilesCollection := String → Option FileInfo

/-- What the httpx upstream GET yields: `status_ok` is whether
`raise_for_status()` passes (also `false` when connecting fails before any
chunk), `chunks` are the body chunks delivered before any mid-stream error,
`mid_error` records an exception thrown after those chunks. -/
structure UpstreamResp where
  status_ok : Bool
  chunks : List Chunk
  mid_error : Bool
deriving DecidableEq, Repr

/-- The collaborators consumed by the route.
`files_collection = none` models `app_state['files_collection'] is None`
(backing store not initialized / unavailable).
`get_file fid = none` models `bot.get_file` raising (caught; url stays None).
`guess_type` is the stdlib `mimetypes.guess_type` first component.
`upstream url range` is the httpx GET of `url` with an optional forwarded
`Range` header. -/
structure Env where
  files_collection : Option FilesCollection
  get_file : String → Option String
  guess_type : String → Option String
  upstream : String → Option String → UpstreamResp

/-- The incoming request: `range_hdr` is `request.headers.get('Range')`
(`none` when the header is absent). -/
structure Req where
  range_hdr : Option String
deriving DecidableEq, Repr

/-- An HTTP response as observed by the client: status, header list in
insertion order, and the list of body chunks. -/
structure Resp where
  status : Nat
  headers : List (String × String)
  body : List Chunk
deriving DecidableEq, Repr

/-- Side effects of one request, for the no-writes / no-fetch claims.
`dbWrite` is in the language because other handlers in `src/main.py` do
write (`insert_one` / `update_one` in the upload and categorization flows);
the stream route is proved to emit none. -/
inductive Effect where
  | dbRead (file_id : String)
  | dbWrite (file_id : String)
  | getFile (file_id : String)
  | upstreamGet (url : String) (range : Option String)
deriving DecidableEq, Repr

/-- `true` for the effects that only read; `dbWrite` is the lone writer. -/
def Effect.isRead : Effect → Bool
  | .dbWrite _ => false
  | _ => true

/-- `TELEGRAM_FILE_SIZE_LIMIT = 20 * 1024 * 1024` (src/main.py line 51). -/
def TELEGRAM_FILE_SIZE_LIMIT : Nat := 20 * 1024 * 1024

/-- The literal extension table of `get_media_mime_type` (src/main.py
lines 113-124). -/
def mime_map : List (String × String) :=
  [("mp4", "video/mp4"), ("avi", "video/x-msvideo"), ("mkv", "video/x-matroska"),
   ("mov", "video/quicktime"), ("wmv", "video/x-ms-wmv"), ("flv", "video/x-flv"),
   ("webm", "video/webm"), ("m4v", "video/mp4"), ("mpg", "video/mpeg"),
   ("mpeg", "video/mpeg"), ("ogv", "video/ogg"), ("3gp", "video/3gpp"),
   ("ts", "video/mp2t"), ("vob", "video/dvd"), ("ogg", "video/ogg"),
   ("hevc", "video/hevc"), ("av1", "video/av1"), ("vp9", "video/vp9"),
   ("h264", "video/h264"), ("h265", "video/h265"),
   ("mp3", "audio/mpeg"), ("wav", "audio/wav"), ("aac", "audio/aac"),
   ("flac", "audio/flac"), ("m4a", "audio/mp4")]

/-- Python `str.strip()` with no argument: remove leading and trailing
whitespace.  Written over the character list so the kernel can evaluate it. -/
def pyStrip (s : String) : String :=
  ⟨((s.toList.dropWhile Char.isWhitespace).reverse.dropWhile Char.isWhitespace).reverse⟩

/-- Association lookup by string key, written with decidable equality so
concrete instances reduce. -/
def mimeLookup (ext : String) : List (String × String) → Option String
  | [] => none
  | p :: ps => if p.1 = ext then some p.2 else mimeLookup ext ps

/-- `get_media_mime_type(filename, default)` (src/main.py lines 107-125):
`mimetypes.guess_type` first, else the extension after the last dot
(`filename.rsplit('.', 1)[1].lower() if '.' in filename else ''`) through
`mime_map`, else the default. -/
def get_media_mime_type (guess : String → Option String) (filename : String)
    (dflt : String) : String :=
  match guess filename with
  | some m => m
  | none =>
    let l := filename.toList
    let ext : String :=
      if l.contains '.' then ⟨((l.reverse.takeWhile (fun c => c ≠ '.')).reverse.map Char.toLower)⟩
      else ""
    (mimeLookup ext mime_map).getD dflt

/-- The chunks yielded by the inner generator `stream_content` (src/main.py
lines 629-644): on a failed fetch or non-2xx status no body chunk is
yielded and the `except` yields a single `b''`; on a mid-stream error the
delivered prefix is followed by the `b''` from the `except`; otherwise the
upstream chunks pass through unchanged. -/
def stream_content (u : UpstreamResp) : List Chunk :=
  if u.status_ok then (if u.mid_error then u.chunks ++ [[]] else u.chunks)
  else [[]]

/-- The five response headers set on the success path (src/main.py
lines 647-653), in insertion order. -/
def respHeaders (mime_type : String) : List (String × String) :=
  [("Content-Type", mime_type),
   ("Accept-Ranges", "bytes"),
   ("Cache-Control", "public, max-age=3600"),
   ("Access-Control-Allow-Origin", "*"),
   ("Transfer-Encoding", "chunked")]

/-- The body of the `try:` block of `stream_file` (src/main.py lines
594-664), with `abort(n)` modelled as `Except.error n`, paired with the
trace of collaborator effects it performs. -/
def stream_file_run (env : Env) (file_id : String) (req : Req) :
    Except Nat Resp × List Effect :=
  match env.files_collection with
  | none => (Except.error 503, [])
  | some fc =>
    match fc file_id with
    | none => (Except.error 404, [Effect.dbRead file_id])
    | some file_info =>
      let mime_type := get_media_mime_type env.guess_type file_info.filename
        "application/octet-stream"
      if file_info.file_size.getD 0 ≤ TELEGRAM_FILE_SIZE_LIMIT then
        match env.get_file file_id with
        | none => (Except.error 404, [Effect.dbRead file_id, Effect.getFile file_id])
        | some url =>
          let range_header := pyStrip (req.range_hdr.getD "")
          let fwd : Option String := if range_header = "" then none else some range_header
          let status : Nat := if range_header = "" then 200 else 206
          (Except.ok ⟨status, respHeaders mime_type, stream_content (env.upstream url fwd)⟩,
           [Effect.dbRead file_id, Effect.getFile file_id, Effect.upstreamGet url fwd])
      else
        (Except.error 404, [Effect.dbRead file_id])

/-- The response the framework renders for the final `abort(500)` (and, in
general, for an uncaught `HTTPException` with status `n`): werkzeug's HTML
error page.  It carries an HTML content type and none of the streaming
route's cache / CORS / range headers. -/
def abortResp (n : Nat) : Resp :=
  ⟨n, [("Content-Type", "text/html; charset=utf-8")], []⟩

/-- The whole route `stream_file` (src/main.py lines 591-668).  The
`except Exception` at lines 666-668 also catches the `HTTPException`
raised by the inner `abort(503)` / `abort(404)` calls (werkzeug's
`HTTPException` subclasses `Exception`), so every error path ends in
`abort(500)`: the recorded abort status is discarded and the client sees
500. -/
def stream_file (env : Env) (file_id : String) (req : Req) : Resp :=
  match (stream_file_run env file_id req).1 with
  | Except.ok r => r
  | Except.error _ => abortResp 500

/-- The effect trace of one request to the route. -/
def stream_file_effects (env : Env) (file_id : String) (req : Req) : List Effect :=
  (stream_file_run env file_id req).2

/-! ## Spec-side definitions (for comparison only)

These two definitions are transcribed from the WORDS of the specification
(section 4.1, steps 5a and 5c), not from the source; they exist so that the
clamping and malformed-range claims can be stated and compared against what
`stream_file` actually does. -/

/-- Digits to a number, most significant first. -/
def natOfDigits (l : List Char) : Nat :=
  l.foldl (fun n c => 10 * n + (c.toNat - 48)) 0

/-- Modelled from the spec: the range pattern `bytes=(\d+)-(\d*)` of
section 4.1 step 5a, with `re.match` (anchored-prefix) semantics: the
header must start with `bytes=`, one or more digits, `-`, then zero or
more digits are captured as the optional end.  Returns the captured
`(start, optional end)`. -/
def parse_range_spec (s : String) : Option (Nat × Option Nat) :=
  match s.toList with
  | 'b' :: 'y' :: 't' :: 'e' :: 's' :: '=' :: rest =>
    let ds := rest.takeWhile Char.isDigit
    if ds = [] then none
    else
      match rest.dropWhile Char.isDigit with
      | '-' :: tail =>
        let es := tail.takeWhile Char.isDigit
        some (natOfDigits ds, if es = [] then none else some (natOfDigits es))
      | _ => none
  | _ => none

/-- Modelled from the spec: the clamp of section 4.1 step 5c,
`start = max(0, min(start, total_length - 1))`;
`end = max(start, min(end, total_length - 1))` (the `max 0` is vacuous over
`Nat`). -/
def spec_clamp (start e total_length : Nat) : Nat × Nat :=
  let s := min start (total_length - 1)
  (s, max s (min e (total_length - 1)))

/-! ## Concrete test environment

A small concrete world used by witnesses and counterexamples: one
resolvable identifier `"abc"` whose record declares 10 bytes, an upstream
that honestly serves the requested range of those 10 bytes (and fails the
status check for an unsatisfiable or unparseable range, as a real server
answering 416 would). -/

def demoContent : List Byte := List.range 10

def demoFI : FileInfo := ⟨"abc.mp4", some 10⟩

def demoFC : FilesCollection := fun i => if i = "abc" then some demoFI else none

def demoUrl : String := "https://api.telegram.org/file/bot123/videos/abc.mp4"

def demoGetFile : String → Option String :=
  fun i => if i = "abc" ∨ i = "big" then some demoUrl else none

def demoGuess : String → Option String := fun _ => none

def demoUpstream : String → Option String → UpstreamResp := fun _ r =>
  match r with
  | none => ⟨true, [demoContent], false⟩
  | some h =>
    match parse_range_spec h with
    | some (s, some e) =>
      if s ≤ e ∧ e < 10 then ⟨true, [(demoContent.drop s).take (e - s + 1)], false⟩
      else ⟨false, [], false⟩
    | some (s, none) =>
      if s < 10 then ⟨true, [demoContent.drop s], false⟩ else ⟨false, [], false⟩
    | none => ⟨false, [], false⟩

def demoEnv : Env := ⟨some demoFC, demoGetFile, demoGuess, demoUpstream⟩

/-- A world whose backing store is down (`files_collection is None`). -/
def downEnv : Env := ⟨none, demoGetFile, demoGuess, demoUpstream⟩

/-- A record larger than the Telegram `get_file` cap. -/
def bigFC : FilesCollection :=
  fun i => if i = "big" then some ⟨"big.mkv", some (TELEGRAM_FILE_SIZE_LIMIT + 1)⟩ else none

def bigEnv : Env := ⟨some bigFC, demoGetFile, demoGuess, demoUpstream⟩

/-- A world whose upstream delivers three chunks and then errors
mid-stream. -/
def midErrUpstream : String → Option String → UpstreamResp :=
  fun _ _ => ⟨true, [[0, 1], [2, 3], [4]], true⟩

def midErrEnv : Env := ⟨some demoFC, demoGetFile, demoGuess, midErrUpstream⟩

example : stream_file demoEnv "abc" ⟨some "bytes=2-5"⟩ =
    ⟨206, respHeaders "video/mp4", [[2, 3, 4, 5]]⟩ := by decide

example : stream_file demoEnv "abc" ⟨none⟩ =
    ⟨200, respHeaders "video/mp4", [demoContent]⟩ := by decide

example : stream_file demoEnv "nope" ⟨none⟩ = abortResp 500 := by decide

example : stream_file downEnv "abc" ⟨none⟩ = abortResp 500 := by decide

example : stream_file bigEnv "big" ⟨none⟩ = abortResp 500 := by decide

example : stream_file_effects bigEnv "big" ⟨none⟩ = [Effect.dbRead "big"] := by decide

example : stream_file demoEnv "abc" ⟨some "garbage"⟩ =
    ⟨206, respHeaders "video/mp4", [[]]⟩ := by decide

/-! ## Success-path characterization -/

/-- Helper: when the store is up, the identifier resolves, the stored size
is within the Telegram cap and `get_file` yields a URL, the run reaches the
`Response(...)` line: status is 206 exactly when the stripped Range header
is non-empty, the five fixed headers are set, the body is the generator
output for the upstream fetch with the stripped header forwarded verbatim,
and the effect trace is read / get-file / upstream-get. -/
theorem stream_file_run_success (env : Env) (fid url : String)
    (fc : FilesCollection) (fi : FileInfo) (req : Req)
    (h1 : env.files_collection = some fc) (h2 : fc fid = some fi)
    (h3 : fi.file_size.getD 0 ≤ TELEGRAM_FILE_SIZE_LIMIT)
    (h4 : env.get_file fid = some url) :
    stream_file_run env fid req =
      (Except.ok
        ⟨if pyStrip (req.range_hdr.getD "") = "" then 200 else 206,
         respHeaders (get_media_mime_type env.guess_type fi.filename "application/octet-stream"),
         stream_content (env.upstream url
           (if pyStrip (req.range_hdr.getD "") = "" then none
            else some (pyStrip (req.range_hdr.getD ""))))⟩,
       [Effect.dbRead fid, Effect.getFile fid,
        Effect.upstreamGet url
          (if pyStrip (req.range_hdr.getD "") = "" then none
           else some (pyStrip (req.range_hdr.getD "")))]) := by
  simp only [stream_file_run, h1, h2]
  rw [if_pos h3]
  simp only [h4]

/-- Helper: the client-visible response on the success path. -/
theorem stream_file_success (env : Env) (fid url : String)
    (fc : FilesCollection) (fi : FileInfo) (req : Req)
    (h1 : env.files_collection = some fc) (h2 : fc fid = some fi)
    (h3 : fi.file_size.getD 0 ≤ TELEGRAM_FILE_SIZE_LIMIT)
    (h4 : env.get_file fid = some url) :
    stream_file env fid req =
      ⟨if pyStrip (req.range_hdr.getD "") = "" then 200 else 206,
       respHeaders (get_media_mime_type env.guess_type fi.filename "application/octet-stream"),
       stream_content (env.upstream url
         (if pyStrip (req.range_hdr.getD "") = "" then none
          else some (pyStrip (req.range_hdr.getD ""))))⟩ := by
  unfold stream_file
  rw [stream_file_run_success env fid url fc fi req h1 h2 h3 h4]

/-- Helper: the effect trace on the success path. -/
theorem stream_file_effects_success (env : Env) (fid url : String)
    (fc : FilesCollection) (fi : FileInfo) (req : Req)
    (h1 : env.files_collection = some fc) (h2 : fc fid = some fi)
    (h3 : fi.file_size.getD 0 ≤ TELEGRAM_FILE_SIZE_LIMIT)
    (h4 : env.get_file fid = some url) :
    stream_file_effects env fid req =
      [Effect.dbRead fid, Effect.getFile fid,
       Effect.upstreamGet url
         (if pyStrip (req.range_hdr.getD "") = "" then none
          else some (pyStrip (req.range_hdr.getD "")))] := by
  unfold stream_file_effects
  rw [stream_file_run_success env fid url fc fi req h1 h2 h3 h4]

/-! ## Claims -/

/-- Claim C3 (code bug): the spec says an unresolvable identifier yields
HTTP 404 with no upstream fetch and no body streaming.  The code's
`abort(404)` (src/main.py line 605) does fire, but the route's own
`except Exception: abort(500)` (lines 666-668) catches the raised
`HTTPException` — a subclass of `Exception` — so the client receives 500,
not 404.  This theorem evaluates the code at the failing input: the
response is the framework 500 error page, its status is not 404, and the
only effect is the single `find_one` read (no `get_file` call, no upstream
fetch, no body). -/
theorem C3_unknown_identifier_500 :
    stream_file demoEnv "does-not-exist" ⟨none⟩ = abortResp 500 ∧
    (stream_file demoEnv "does-not-exist" ⟨none⟩).status ≠ 404 ∧
    stream_file_effects demoEnv "does-not-exist" ⟨none⟩ = [Effect.dbRead "does-not-exist"] ∧
    (stream_file demoEnv "does-not-exist" ⟨none⟩).body = [] := by decide

/-- Claim C4 (code bug): the spec requires backing-store unavailability to
surface as 503, distinguishable from the 404 of an unknown identifier.  The
code raises `abort(503)` (line 596) and `abort(404)` (line 605)
respectively, but both `HTTPException`s are caught by the route's blanket
`except Exception` and replaced by `abort(500)`: both failure modes reach
the client as the same 500 response, so they are conflated and 503 is never
observed. -/
theorem C4_unavailable_conflated_with_unknown :
    (stream_file downEnv "abc" ⟨none⟩).status = 500 ∧
    (stream_file downEnv "abc" ⟨none⟩).status ≠ 503 ∧
    (stream_file demoEnv "nope" ⟨none⟩).status = 500 ∧
    stream_file downEnv "abc" ⟨none⟩ = stream_file demoEnv "nope" ⟨none⟩ := by decide

/-- Claim C10 (confirmed): serving is an idempotent, side-effect-free
per-request transformation.  The embedding is a pure function of the
Content Record state and the upstream bytes, so two identical invocations
are literally the same value (first conjunct, definitional — the handler
consults no state other than its inputs), and every effect the handler
performs is a read: the trace never contains a `dbWrite` (the write effects
used by the repository's upload handlers). -/
theorem C10_idempotent_and_writeless (env : Env) (fid : String) (req : Req) :
    stream_file env fid req = stream_file env fid req ∧
    (stream_file_effects env fid req).all Effect.isRead = true := by
  refine ⟨rfl, ?_⟩
  unfold stream_file_effects stream_file_run
  repeat' split
  all_goals simp [Effect.isRead]

/-- Claim C1 counterexample: with the resolvable identifier `"abc"` of
declared total length 10 and the valid range request `bytes=2-5`
(`0 ≤ 2 ≤ 5 < 10`), the response has status 206 but carries no
`Content-Range` header (in particular not the `bytes 2-5/10` the claim
requires) and no `Content-Length` header (not the `4` the claim requires):
the handler deliberately streams chunked and never sets either header. -/
theorem C1_cex_no_content_range :
    (stream_file demoEnv "abc" ⟨some "bytes=2-5"⟩).status = 206 ∧
    ("Content-Range", "bytes 2-5/10") ∉ (stream_file demoEnv "abc" ⟨some "bytes=2-5"⟩).headers ∧
    "Content-Range" ∉ ((stream_file demoEnv "abc" ⟨some "bytes=2-5"⟩).headers.map Prod.fst) ∧
    "Content-Length" ∉ ((stream_file demoEnv "abc" ⟨some "bytes=2-5"⟩).headers.map Prod.fst) := by
  decide

/-- Claim C1 (amended): for a resolvable identifier within the size cap
and any Range header that is its own strip and non-empty, the route
responds 206, forwards the Range header verbatim upstream, and the body is
exactly the chunk stream the upstream returns for that forwarded header —
in particular, when the upstream honestly serves bytes `start..end`, the
client receives exactly those `end-start+1` bytes.  No `Content-Range` or
`Content-Length` header is set: the response headers are exactly the five
fixed ones (`Content-Type`, `Accept-Ranges`, `Cache-Control`,
`Access-Control-Allow-Origin`, `Transfer-Encoding`). -/
theorem C1_range_forwarded_206 (env : Env) (fid url rh : String)
    (fc : FilesCollection) (fi : FileInfo) (cs : List Chunk)
    (h1 : env.files_collection = some fc) (h2 : fc fid = some fi)
    (h3 : fi.file_size.getD 0 ≤ TELEGRAM_FILE_SIZE_LIMIT)
    (h4 : env.get_file fid = some url)
    (h5 : pyStrip rh = rh) (h6 : rh ≠ "")
    (h7 : env.upstream url (some rh) = ⟨true, cs, false⟩) :
    stream_file env fid ⟨some rh⟩ =
      ⟨206,
       respHeaders (get_media_mime_type env.guess_type fi.filename "application/octet-stream"),
       cs⟩ ∧
    stream_file_effects env fid ⟨some rh⟩ =
      [Effect.dbRead fid, Effect.getFile fid, Effect.upstreamGet url (some rh)] ∧
    (stream_file env fid ⟨some rh⟩).headers.map Prod.fst =
      ["Content-Type", "Accept-Ranges", "Cache-Control",
       "Access-Control-Allow-Origin", "Transfer-Encoding"] := by
  have hs : pyStrip ((Req.mk (some rh)).range_hdr.getD "") = rh := h5
  have hr : stream_file env fid ⟨some rh⟩ =
      ⟨206,
       respHeaders (get_media_mime_type env.guess_type fi.filename "application/octet-stream"),
       cs⟩ := by
    rw [stream_file_success env fid url fc fi ⟨some rh⟩ h1 h2 h3 h4]
    rw [hs, if_neg h6, if_neg h6, h7]
    simp [stream_content]
  refine ⟨hr, ?_, ?_⟩
  · rw [stream_file_effects_success env fid url fc fi ⟨some rh⟩ h1 h2 h3 h4]
    rw [hs, if_neg h6]
  · rw [hr]
    rfl

/-- Claim C1 witness: the amended behavior at the concrete world `demoEnv`
(identifier `"abc"`, 10 bytes, range `bytes=2-5`, honest upstream serving
chunk `[2, 3, 4, 5]`). -/
theorem C1_range_forwarded_206_witness :
    stream_file demoEnv "abc" ⟨some "bytes=2-5"⟩ =
      ⟨206,
       respHeaders (get_media_mime_type demoEnv.guess_type demoFI.filename "application/octet-stream"),
       [[2, 3, 4, 5]]⟩ ∧
    stream_file_effects demoEnv "abc" ⟨some "bytes=2-5"⟩ =
      [Effect.dbRead "abc", Effect.getFile "abc", Effect.upstreamGet demoUrl (some "bytes=2-5")] ∧
    (stream_file demoEnv "abc" ⟨some "bytes=2-5"⟩).headers.map Prod.fst =
      ["Content-Type", "Accept-Ranges", "Cache-Control",
       "Access-Control-Allow-Origin", "Transfer-Encoding"] :=
  C1_range_forwarded_206 demoEnv "abc" demoUrl "bytes=2-5" demoFC demoFI [[2, 3, 4, 5]]
    rfl (by decide) (by decide) (by decide) (by decide) (by decide) (by decide)

/-- Claim C2 counterexample: for the resolvable identifier `"abc"` whose
record declares `file_size = 10` (the length is known) and a request with
no Range header, the response has status 200 but carries no
`Content-Length` header at all — the handler deliberately uses chunked
transfer encoding instead (src/main.py line 646: "DON'T set
Content-Length"). -/
theorem C2_cex_no_content_length :
    (stream_file demoEnv "abc" ⟨none⟩).status = 200 ∧
    demoFI.file_size = some 10 ∧
    "Content-Length" ∉ ((stream_file demoEnv "abc" ⟨none⟩).headers.map Prod.fst) := by
  decide

/-- Claim C2 (amended): for a resolvable identifier within the size cap
and a request whose Range header is absent (or strips to the empty
string), the route responds 200 with `Accept-Ranges: bytes`, fetches the
upstream URL with no Range header, and — when the upstream delivers its
chunks without error — the concatenation of the streamed chunks is exactly
the full upstream bytes.  No `Content-Length` header is set, even when the
record's `file_size` is known: the response headers are exactly the five
fixed ones and the transfer is chunked. -/
theorem C2_full_content_200 (env : Env) (fid url : String)
    (fc : FilesCollection) (fi : FileInfo) (req : Req)
    (cs : List Chunk) (content : List Byte)
    (h1 : env.files_collection = some fc) (h2 : fc fid = some fi)
    (h3 : fi.file_size.getD 0 ≤ TELEGRAM_FILE_SIZE_LIMIT)
    (h4 : env.get_file fid = some url)
    (h5 : pyStrip (req.range_hdr.getD "") = "")
    (h6 : env.upstream url none = ⟨true, cs, false⟩)
    (h7 : cs.flatten = content) :
    stream_file env fid req =
      ⟨200,
       respHeaders (get_media_mime_type env.guess_type fi.filename "application/octet-stream"),
       cs⟩ ∧
    (stream_file env fid req).body.flatten = content ∧
    ("Accept-Ranges", "bytes") ∈ (stream_file env fid req).headers ∧
    stream_file_effects env fid req =
      [Effect.dbRead fid, Effect.getFile fid, Effect.upstreamGet url none] ∧
    (stream_file env fid req).headers.map Prod.fst =
      ["Content-Type", "Accept-Ranges", "Cache-Control",
       "Access-Control-Allow-Origin", "Transfer-Encoding"] := by
  have hr : stream_file env fid req =
      ⟨200,
       respHeaders (get_media_mime_type env.guess_type fi.filename "application/octet-stream"),
       cs⟩ := by
    rw [stream_file_success env fid url fc fi req h1 h2 h3 h4, h5]
    simp only [reduceIte]
    rw [h6]
    simp [stream_content]
  refine ⟨hr, ?_, ?_, ?_, ?_⟩
  · rw [hr]; exact h7
  · rw [hr]; simp [respHeaders]
  · rw [stream_file_effects_success env fid url fc fi req h1 h2 h3 h4, h5]
    simp only [reduceIte]
  · rw [hr]; rfl

/-- Claim C2 witness: the amended behavior at the concrete world `demoEnv`
(identifier `"abc"`, upstream delivering the 10 content bytes in one
chunk, no Range header). -/
theorem C2_full_content_200_witness :
    stream_file demoEnv "abc" ⟨none⟩ =
      ⟨200,
       respHeaders (get_media_mime_type demoEnv.guess_type demoFI.filename "application/octet-stream"),
       [demoContent]⟩ ∧
    (stream_file demoEnv "abc" ⟨none⟩).body.flatten = demoContent ∧
    ("Accept-Ranges", "bytes") ∈ (stream_file demoEnv "abc" ⟨none⟩).headers ∧
    stream_file_effects demoEnv "abc" ⟨none⟩ =
      [Effect.dbRead "abc", Effect.getFile "abc", Effect.upstreamGet demoUrl none] ∧
    (stream_file demoEnv "abc" ⟨none⟩).headers.map Prod.fst =
      ["Content-Type", "Accept-Ranges", "Cache-Control",
       "Access-Control-Allow-Origin", "Transfer-Encoding"] :=
  C2_full_content_200 demoEnv "abc" demoUrl demoFC demoFI ⟨none⟩ [demoContent] demoContent
    rfl (by decide) (by decide) (by decide) (by decide) (by decide) (by decide)

/-- Claim C5 counterexample: the header `"garbage"` does not match
`bytes=(\d+)-(\d*)`, yet the route does NOT fall back to the full-content
200 response: any non-empty Range header — malformed or not — flips the
status to 206 and is forwarded upstream, so the response differs from the
no-header response (status 206 vs 200, and the demo upstream rejects the
nonsense header so the body collapses to the lone `b''`). -/
theorem C5_cex_malformed_range_not_ignored :
    parse_range_spec "garbage" = none ∧
    (stream_file demoEnv "abc" ⟨some "garbage"⟩).status = 206 ∧
    (stream_file demoEnv "abc" ⟨none⟩).status = 200 ∧
    stream_file demoEnv "abc" ⟨some "garbage"⟩ ≠ stream_file demoEnv "abc" ⟨none⟩ := by
  decide

/-- Claim C5 (amended): the route never parses the Range header at all.
Only a Range header that strips to the empty string is treated as absent
(status 200); any other Range string — well-formed or malformed — is
forwarded verbatim (stripped) upstream and the status is 206.  In both
cases the relay itself answers with a normal streaming response, never an
error status. -/
theorem C5_any_nonempty_range_206 (env : Env) (fid url rh : String)
    (fc : FilesCollection) (fi : FileInfo)
    (h1 : env.files_collection = some fc) (h2 : fc fid = some fi)
    (h3 : fi.file_size.getD 0 ≤ TELEGRAM_FILE_SIZE_LIMIT)
    (h4 : env.get_file fid = some url) :
    (pyStrip rh ≠ "" →
      (stream_file env fid ⟨some rh⟩).status = 206 ∧
      stream_file_effects env fid ⟨some rh⟩ =
        [Effect.dbRead fid, Effect.getFile fid, Effect.upstreamGet url (some (pyStrip rh))]) ∧
    (pyStrip rh = "" → (stream_file env fid ⟨some rh⟩).status = 200) ∧
    ((stream_file env fid ⟨some rh⟩).status = 200 ∨
     (stream_file env fid ⟨some rh⟩).status = 206) := by
  have hg : ((⟨some rh⟩ : Req)).range_hdr.getD "" = rh := rfl
  have hresp := stream_file_success env fid url fc fi ⟨some rh⟩ h1 h2 h3 h4
  have heff := stream_file_effects_success env fid url fc fi ⟨some rh⟩ h1 h2 h3 h4
  rw [hg] at hresp heff
  by_cases h : pyStrip rh = ""
  · rw [h] at hresp heff
    simp only [reduceIte] at hresp heff
    exact ⟨fun hc => absurd h hc, fun _ => by rw [hresp], Or.inl (by rw [hresp])⟩
  · rw [if_neg h, if_neg h] at hresp
    rw [if_neg h] at heff
    exact ⟨fun _ => ⟨by rw [hresp], heff⟩, fun hc => absurd hc h, Or.inr (by rw [hresp])⟩

/-- Claim C5 witness: the amended behavior at `demoEnv` with the malformed
header `"garbage"`. -/
theorem C5_any_nonempty_range_206_witness :
    (pyStrip "garbage" ≠ "" →
      (stream_file demoEnv "abc" ⟨some "garbage"⟩).status = 206 ∧
      stream_file_effects demoEnv "abc" ⟨some "garbage"⟩ =
        [Effect.dbRead "abc", Effect.getFile "abc",
         Effect.upstreamGet demoUrl (some (pyStrip "garbage"))]) ∧
    (pyStrip "garbage" = "" → (stream_file demoEnv "abc" ⟨some "garbage"⟩).status = 200) ∧
    ((stream_file demoEnv "abc" ⟨some "garbage"⟩).status = 200 ∨
     (stream_file demoEnv "abc" ⟨some "garbage"⟩).status = 206) :=
  C5_any_nonempty_range_206 demoEnv "abc" demoUrl "garbage" demoFC demoFI
    rfl (by decide) (by decide) (by decide)

/-- Claim C6 counterexample: the client sends `bytes=5000-9000` against
the 10-byte record `"abc"`.  The spec's clamp would serve `[9, 9]`
(`spec_clamp 5000 9000 10 = (9, 9)`), i.e. forward `bytes=9-9`; the code
instead forwards `bytes=5000-9000` verbatim — a range whose start, 5000,
is not within `[0, total_length - 1] = [0, 9]`.  No clamping happens. -/
theorem C6_cex_range_not_clamped :
    demoFI.file_size = some 10 ∧
    parse_range_spec "bytes=5000-9000" = some (5000, some 9000) ∧
    spec_clamp 5000 9000 10 = (9, 9) ∧
    stream_file_effects demoEnv "abc" ⟨some "bytes=5000-9000"⟩ =
      [Effect.dbRead "abc", Effect.getFile "abc",
       Effect.upstreamGet demoUrl (some "bytes=5000-9000")] ∧
    ¬ (5000 ≤ 10 - 1) := by decide

/-- Helper: exhaustive status analysis of the route.  Every request ends
in a well-defined response whose status is 200 (no range), 206 (any
non-empty stripped Range header) or 500 (any pre-response failure, via the
blanket `except Exception` / final `abort(500)`): no path escapes with an
unhandled exception and no other status is producible. -/
theorem stream_file_status_cases (env : Env) (fid : String) (req : Req) :
    (stream_file env fid req).status = 200 ∨ (stream_file env fid req).status = 206 ∨
    (stream_file env fid req).status = 500 := by
  rcases hfc : env.files_collection with _ | fc
  · simp [stream_file, stream_file_run, hfc, abortResp]
  · rcases hfi : fc fid with _ | fi
    · simp [stream_file, stream_file_run, hfc, hfi, abortResp]
    · by_cases hsz : fi.file_size.getD 0 ≤ TELEGRAM_FILE_SIZE_LIMIT
      · rcases hgf : env.get_file fid with _ | url
        · have hrun : stream_file_run env fid req =
              (Except.error 404, [Effect.dbRead fid, Effect.getFile fid]) := by
            simp only [stream_file_run, hfc, hfi]
            rw [if_pos hsz]
            simp only [hgf]
          simp [stream_file, hrun, abortResp]
        · rw [stream_file_success env fid url fc fi req hfc hfi hsz hgf]
          by_cases hrh : pyStrip (req.range_hdr.getD "") = "" <;> simp [hrh]
      · have hrun : stream_file_run env fid req =
            (Except.error 404, [Effect.dbRead fid]) := by
          simp only [stream_file_run, hfc, hfi]
          rw [if_neg hsz]
        simp [stream_file, hrun, abortResp]

/-- Claim C6 (amended): the route performs no parsing and no clamping —
the client's Range header is forwarded verbatim (only stripped) upstream,
whatever `total_length` is, and the served range is whatever the upstream
decides to serve for it.  Processing never ends in an unhandled error: the
status of every response is 200, 206 or 500 (every Python exception on the
route is caught — pre-response failures surface as the 500 error page,
mid-stream failures only truncate the body). -/
theorem C6_no_clamping_verbatim_forward (env : Env) (fid url rh : String)
    (fc : FilesCollection) (fi : FileInfo) (req : Req) :
    ((stream_file env fid req).status = 200 ∨ (stream_file env fid req).status = 206 ∨
     (stream_file env fid req).status = 500) ∧
    (env.files_collection = some fc → fc fid = some fi →
     fi.file_size.getD 0 ≤ TELEGRAM_FILE_SIZE_LIMIT → env.get_file fid = some url →
     pyStrip rh = rh → rh ≠ "" →
     stream_file_effects env fid ⟨some rh⟩ =
       [Effect.dbRead fid, Effect.getFile fid, Effect.upstreamGet url (some rh)]) := by
  constructor
  · exact stream_file_status_cases env fid req
  · intro h1 h2 h3 h4 h5 h6
    have hg : ((⟨some rh⟩ : Req)).range_hdr.getD "" = rh := rfl
    have heff := stream_file_effects_success env fid url fc fi ⟨some rh⟩ h1 h2 h3 h4
    rw [hg, h5, if_neg h6] at heff
    exact heff

/-- Claim C6 witness: at `demoEnv` with the far-out-of-range header
`bytes=5000-9000`, the status is one of 200/206/500 and the header is
forwarded verbatim. -/
theorem C6_no_clamping_verbatim_forward_witness :
    ((stream_file demoEnv "abc" ⟨some "bytes=5000-9000"⟩).status = 200 ∨
     (stream_file demoEnv "abc" ⟨some "bytes=5000-9000"⟩).status = 206 ∨
     (stream_file demoEnv "abc" ⟨some "bytes=5000-9000"⟩).status = 500) ∧
    stream_file_effects demoEnv "abc" ⟨some "bytes=5000-9000"⟩ =
      [Effect.dbRead "abc", Effect.getFile "abc",
       Effect.upstreamGet demoUrl (some "bytes=5000-9000")] :=
  ⟨(C6_no_clamping_verbatim_forward demoEnv "abc" demoUrl "bytes=5000-9000" demoFC demoFI
      ⟨some "bytes=5000-9000"⟩).1,
   (C6_no_clamping_verbatim_forward demoEnv "abc" demoUrl "bytes=5000-9000" demoFC demoFI
      ⟨some "bytes=5000-9000"⟩).2 rfl (by decide) (by decide) (by decide) (by decide)
      (by decide)⟩

/-- Claim C7 (confirmed): when the stored `file_size` exceeds
`TELEGRAM_FILE_SIZE_LIMIT` (20 MiB), the handler skips the
`bot.get_file` call entirely, `telegram_file_url` stays `None`, and
`abort(404)` fires — which the route's blanket `except Exception` converts
to the 500 error page.  Either way the request ends in an error status
(500 here), never 200 or 206, no attempt is made to obtain an upstream
URL, no upstream fetch happens, and no body is streamed. -/
theorem C7_oversized_never_streams (env : Env) (fid : String) (req : Req)
    (fc : FilesCollection) (fi : FileInfo) (n : Nat)
    (h1 : env.files_collection = some fc) (h2 : fc fid = some fi)
    (h3 : fi.file_size = some n) (h4 : TELEGRAM_FILE_SIZE_LIMIT < n) :
    stream_file env fid req = abortResp 500 ∧
    (stream_file env fid req).status ≠ 200 ∧
    (stream_file env fid req).status ≠ 206 ∧
    stream_file_effects env fid req = [Effect.dbRead fid] ∧
    (stream_file env fid req).body = [] := by
  have hn : ¬ (fi.file_size.getD 0 ≤ TELEGRAM_FILE_SIZE_LIMIT) := by
    rw [h3]
    exact Nat.not_le.mpr h4
  have hrun : stream_file_run env fid req = (Except.error 404, [Effect.dbRead fid]) := by
    simp only [stream_file_run, h1, h2]
    rw [if_neg hn]
  refine ⟨?_, ?_, ?_, ?_, ?_⟩ <;>
    simp [stream_file, stream_file_effects, hrun, abortResp]

/-- Claim C7 witness: the record `"big"` stores
`TELEGRAM_FILE_SIZE_LIMIT + 1` bytes; the request dies with the 500 page,
touching only the database read. -/
theorem C7_oversized_never_streams_witness :
    stream_file bigEnv "big" ⟨none⟩ = abortResp 500 ∧
    (stream_file bigEnv "big" ⟨none⟩).status ≠ 200 ∧
    (stream_file bigEnv "big" ⟨none⟩).status ≠ 206 ∧
    stream_file_effects bigEnv "big" ⟨none⟩ = [Effect.dbRead "big"] ∧
    (stream_file bigEnv "big" ⟨none⟩).body = [] :=
  C7_oversized_never_streams bigEnv "big" ⟨none⟩ bigFC
    ⟨"big.mkv", some (TELEGRAM_FILE_SIZE_LIMIT + 1)⟩ (TELEGRAM_FILE_SIZE_LIMIT + 1)
    rfl (by decide) rfl (Nat.lt_succ_self _)

/-- Claim C8 counterexample: the claim quantifies over EVERY response of
the `/stream` endpoint, but an unknown identifier produces the framework's
error page (status 500 here), which carries none of `Cache-Control`,
`Access-Control-Allow-Origin` or `Accept-Ranges` — only the successful
streaming responses carry the advertised header set. -/
theorem C8_cex_error_response_lacks_headers :
    (stream_file demoEnv "missing" ⟨none⟩).status = 500 ∧
    "Cache-Control" ∉ ((stream_file demoEnv "missing" ⟨none⟩).headers.map Prod.fst) ∧
    "Access-Control-Allow-Origin" ∉
      ((stream_file demoEnv "missing" ⟨none⟩).headers.map Prod.fst) ∧
    "Accept-Ranges" ∉ ((stream_file demoEnv "missing" ⟨none⟩).headers.map Prod.fst) := by
  decide

/-- Claim C8 (amended): every SUCCESSFUL streaming response — ranged or
not, for every resolvable identifier with an obtainable URL — includes
`Cache-Control: public, max-age=3600`, `Access-Control-Allow-Origin: *`,
`Accept-Ranges: bytes`, and a `Content-Type` header with the resolved MIME
type; error responses produced via `abort` do not carry these headers. -/
theorem C8_success_responses_have_headers (env : Env) (fid url : String)
    (fc : FilesCollection) (fi : FileInfo) (req : Req)
    (h1 : env.files_collection = some fc) (h2 : fc fid = some fi)
    (h3 : fi.file_size.getD 0 ≤ TELEGRAM_FILE_SIZE_LIMIT)
    (h4 : env.get_file fid = some url) :
    ("Cache-Control", "public, max-age=3600") ∈ (stream_file env fid req).headers ∧
    ("Access-Control-Allow-Origin", "*") ∈ (stream_file env fid req).headers ∧
    ("Accept-Ranges", "bytes") ∈ (stream_file env fid req).headers ∧
    ("Content-Type", get_media_mime_type env.guess_type fi.filename "application/octet-stream")
      ∈ (stream_file env fid req).headers := by
  rw [stream_file_success env fid url fc fi req h1 h2 h3 h4]
  simp [respHeaders]

/-- Claim C8 witness: the four headers on the concrete successful ranged
response at `demoEnv`. -/
theorem C8_success_responses_have_headers_witness :
    ("Cache-Control", "public, max-age=3600")
      ∈ (stream_file demoEnv "abc" ⟨some "bytes=2-5"⟩).headers ∧
    ("Access-Control-Allow-Origin", "*")
      ∈ (stream_file demoEnv "abc" ⟨some "bytes=2-5"⟩).headers ∧
    ("Accept-Ranges", "bytes") ∈ (stream_file demoEnv "abc" ⟨some "bytes=2-5"⟩).headers ∧
    ("Content-Type", get_media_mime_type demoEnv.guess_type demoFI.filename "application/octet-stream")
      ∈ (stream_file demoEnv "abc" ⟨some "bytes=2-5"⟩).headers :=
  C8_success_responses_have_headers demoEnv "abc" demoUrl demoFC demoFI ⟨some "bytes=2-5"⟩
    rfl (by decide) (by decide) (by decide)

/-- Claim C9 (confirmed): if the upstream read fails after `cs` chunks have
been delivered (modelled by `mid_error = true`), the inner generator's
`except` catches the exception and yields one final `b''`: the route still
returns the already-committed normal response (`stream_file_run` is
`Except.ok` of exactly the returned response — nothing escapes to the
client), the status and headers are the same values the error-free run
would have produced (they are fixed before the generator runs and are
independent of the upstream outcome), and the body is the delivered prefix
`cs` plus the empty chunk, whose byte content is exactly `cs.flatten` —
a silently truncated body. -/
theorem C9_midstream_error_truncates_silently (env : Env) (fid url : String)
    (fc : FilesCollection) (fi : FileInfo) (req : Req) (cs : List Chunk)
    (h1 : env.files_collection = some fc) (h2 : fc fid = some fi)
    (h3 : fi.file_size.getD 0 ≤ TELEGRAM_FILE_SIZE_LIMIT)
    (h4 : env.get_file fid = some url)
    (h5 : env.upstream url
        (if pyStrip (req.range_hdr.getD "") = "" then none
         else some (pyStrip (req.range_hdr.getD ""))) = ⟨true, cs, true⟩) :
    (stream_file_run env fid req).1 = Except.ok (stream_file env fid req) ∧
    (stream_file env fid req).status =
      (if pyStrip (req.range_hdr.getD "") = "" then 200 else 206) ∧
    (stream_file env fid req).headers =
      respHeaders (get_media_mime_type env.guess_type fi.filename "application/octet-stream") ∧
    (stream_file env fid req).body = cs ++ [[]] ∧
    (stream_file env fid req).body.flatten = cs.flatten := by
  have hrun := stream_file_run_success env fid url fc fi req h1 h2 h3 h4
  have hresp := stream_file_success env fid url fc fi req h1 h2 h3 h4
  rw [h5] at hrun hresp
  refine ⟨?_, ?_, ?_, ?_, ?_⟩
  · rw [hrun, hresp]
  · rw [hresp]
  · rw [hresp]
  · rw [hresp]; simp [stream_content]
  · rw [hresp]; simp [stream_content]

/-- Claim C9 witness: at `midErrEnv` the upstream dies after delivering
`[[0, 1], [2, 3], [4]]`; the client still gets the committed 200 response
whose body bytes are exactly the delivered prefix `[0, 1, 2, 3, 4]`. -/
theorem C9_midstream_error_truncates_silently_witness :
    (stream_file_run midErrEnv "abc" ⟨none⟩).1 =
      Except.ok (stream_file midErrEnv "abc" ⟨none⟩) ∧
    (stream_file midErrEnv "abc" ⟨none⟩).status =
      (if pyStrip (((⟨none⟩ : Req)).range_hdr.getD "") = "" then 200 else 206) ∧
    (stream_file midErrEnv "abc" ⟨none⟩).headers =
      respHeaders (get_media_mime_type midErrEnv.guess_type demoFI.filename "application/octet-stream") ∧
    (stream_file midErrEnv "abc" ⟨none⟩).body = [[0, 1], [2, 3], [4]] ++ [[]] ∧
    (stream_file midErrEnv "abc" ⟨none⟩).body.flatten = [[0, 1], [2, 3], [4]].flatten :=
  C9_midstream_error_truncates_silently midErrEnv "abc" demoUrl demoFC demoFI ⟨none⟩
    [[0, 1], [2, 3], [4]] rfl (by decide) (by decide) (by decide) (by decide)
